import Mathlib

/-!
Shallow embedding of the Phaser `Mesh` game object
(`src/gameobjects/mesh/Mesh.js`) and the parts of its collaborators
(`Vertex`, `Face`) that its specification describes.

Modelling conventions:
* JS numbers are modelled as `Rat` (the source performs only exact
  arithmetic on them in the modelled operations).
* A JS array read `a[i]` may produce `undefined`; it is modelled as
  `Option` via `jsGet`.
* Arguments that may be a plain number or an array (`colors`, `alphas`)
  are modelled by `NumOrArr`; optional arguments by `Option`.
* A thrown exception is modelled as `Except.error`; since the model is
  pure, an error result leaves the caller's state untouched.
* The `debugCallback`, `debugGraphic` and `anims` fields hold opaque
  references to external collaborators; they are modelled by type
  parameters `C`, `G`, `A`.
-/

set_option autoImplicit false

namespace Phaser

/-- JS array element read: `a[i]` yields the element when the index is in
range and `undefined` (here `none`) otherwise. -/
def jsGet {α : Type} (l : List α) (i : Nat) : Option α :=
  l.get? i

/-- A JS argument that may be a single number or an array; the source
distinguishes the two cases with `Array.isArray`. -/
inductive NumOrArr (α : Type) where
  | num (n : α)
  | arr (l : List α)
deriving DecidableEq

/-- The conditional read `(isColorArray) ? colors[i] : colors` used by
`addVertices` (Mesh.js lines 222-223 and 240-241). -/
def NumOrArr.pick {α : Type} (val : NumOrArr α) (i : Nat) : Option α :=
  match val with
  | .num n => some n
  | .arr l => jsGet l i

/-- Modelled from the spec: `Vertex.js` is not part of the given sources.
Per the spec (§4.1) a Vertex stores position `(x, y)`, texture coordinate
`(u, v)`, a packed color and an alpha, exactly as passed to its
constructor, with no validation. The fields are `Option`s because
`Mesh.addVertices` can pass `undefined` to the constructor (out-of-range
reads of the flat input arrays). -/
structure Vertex where
  x : Option Rat
  y : Option Rat
  u : Option Rat
  v : Option Rat
  color : Option Nat
  alpha : Option Rat
deriving DecidableEq

/-- Modelled from the spec: `Face.js` is not part of the given sources.
Per the spec (§4.2) a Face groups three vertex references. The fields are
`Option`s because the face-building loop in `Mesh.addVertices` can read
past the end of the vertex array, passing `undefined` references. -/
structure Face where
  vertex1 : Option Vertex
  vertex2 : Option Vertex
  vertex3 : Option Vertex
deriving DecidableEq

/-- The state of a `Mesh` game object: the fields of Mesh.js touched by
the modelled operations (lines 98-155).  `C`, `G` and `A` are the types
of the debug-callback, debug-graphic and animation-state collaborator
references. -/
structure Mesh (C G A : Type) where
  faces : List Face
  vertices : List Vertex
  tintFill : Bool
  debugCallback : Option C
  debugGraphic : Option G
  anims : A

/-- The field values installed by the Mesh constructor before the initial
`addVertices` call (Mesh.js lines 85-155): empty collections, `tintFill`
false, no debug hooks. -/
def initialMesh {C G A : Type} (anims : A) : Mesh C G A :=
  { faces := []
    vertices := []
    tintFill := false
    debugCallback := none
    debugGraphic := none
    anims := anims }

/-- `Mesh.clearVertices` (Mesh.js lines 180-191): destroys every face and
replaces both collections with empty arrays.  `Face.destroy` only clears
the destroyed faces' own references, so the resulting mesh state is the
record with both collections emptied. -/
def Mesh.clearVertices {C G A : Type} (s : Mesh C G A) : Mesh C G A :=
  { s with faces := [], vertices := [] }

/-- The indexed ingestion loop of `addVertices` (Mesh.js lines 213-227):
one Vertex per index entry, position and uv read at offset `index * 2`,
color and alpha read at the entry's position `i` in the index sequence. -/
def indexedLoop (vertices uvs : List Rat) (colors : NumOrArr Nat)
    (alphas : NumOrArr Rat) : List Nat → Nat → List Vertex
  | [], _ => []
  | idx :: rest, i =>
    { x := jsGet vertices (idx * 2)
      y := jsGet vertices (idx * 2 + 1)
      u := jsGet uvs (idx * 2)
      v := jsGet uvs (idx * 2 + 1)
      color := colors.pick i
      alpha := alphas.pick i } :: indexedLoop vertices uvs colors alphas rest (i + 1)

/-- The non-indexed ingestion loop of `addVertices` (Mesh.js lines
231-247): `for (i = 0; i < vertices.length; i += 2)` reading
`vertices[i]`, `vertices[i+1]`, `uvs[i]`, `uvs[i+1]`, with a separately
incremented `colorIndex`.  Translated structurally: each iteration
consumes the next two entries of the position array (an odd trailing
entry makes the final `vertices[i+1]` read undefined) and advances two
entries into the uv array, whose reads may run past its end. -/
def plainLoop (colors : NumOrArr Nat) (alphas : NumOrArr Rat) :
    List Rat → List Rat → Nat → List Vertex
  | [], _, _ => []
  | [x0], uvs, colorIndex =>
    [{ x := some x0
       y := none
       u := jsGet uvs 0
       v := jsGet uvs 1
       color := colors.pick colorIndex
       alpha := alphas.pick colorIndex }]
  | x0 :: y0 :: rest, uvs, colorIndex =>
    { x := some x0
      y := some y0
      u := jsGet uvs 0
      v := jsGet uvs 1
      color := colors.pick colorIndex
      alpha := alphas.pick colorIndex } ::
      plainLoop colors alphas rest (uvs.drop 2) (colorIndex + 1)

/-- The vertices appended by one `addVertices` call: the indexed loop when
`Array.isArray(indicies)` holds, the plain loop otherwise (Mesh.js lines
211-248). -/
def newVertices (vertices uvs : List Rat) (colors : NumOrArr Nat)
    (alphas : NumOrArr Rat) (indicies : Option (List Nat)) : List Vertex :=
  match indicies with
  | some idxs => indexedLoop vertices uvs colors alphas idxs 0
  | none => plainLoop colors alphas vertices uvs 0

/-- The face-building loop of `addVertices` (Mesh.js lines 250-259):
`for (i = 0; i < verts.length; i += 3)` over the whole vertex collection,
creating a Face from `verts[i]`, `verts[i+1]`, `verts[i+2]`.  Translated
structurally: each iteration consumes up to three remaining vertices, a
final group of one or two leaving the remaining reads undefined. -/
def faceLoop : List Vertex → List Face
  | [] => []
  | [vert1] => [{ vertex1 := some vert1, vertex2 := none, vertex3 := none }]
  | [vert1, vert2] => [{ vertex1 := some vert1, vertex2 := some vert2, vertex3 := none }]
  | vert1 :: vert2 :: vert3 :: rest =>
    { vertex1 := some vert1, vertex2 := some vert2, vertex3 := some vert3 } :: faceLoop rest

/-- `Mesh.addVertices` (Mesh.js lines 193-262): default `colors`/`alphas`
when omitted, throw when the position and uv arrays differ in length
(before any mutation), append the ingested vertices to `this.vertices`,
then run the face loop over the whole extended vertex collection, pushing
its faces onto the existing `this.faces`. -/
def Mesh.addVertices {C G A : Type} (s : Mesh C G A) (vertices uvs : List Rat)
    (indicies : Option (List Nat)) (colors0 : Option (NumOrArr Nat))
    (alphas0 : Option (NumOrArr Rat)) : Except String (Mesh C G A) :=
  let colors := colors0.getD (NumOrArr.num 0xffffff)
  let alphas := alphas0.getD (NumOrArr.num 1)
  if vertices.length ≠ uvs.length then
    Except.error "Mesh - vertices and uv count not equal"
  else
    let verts := s.vertices ++ newVertices vertices uvs colors alphas indicies
    Except.ok { s with vertices := verts, faces := s.faces ++ faceLoop verts }

/-- `Mesh.getFaceCount` (Mesh.js lines 264-267). -/
def Mesh.getFaceCount {C G A : Type} (s : Mesh C G A) : Nat :=
  s.faces.length

/-- `Mesh.getVertexCount` (Mesh.js lines 269-272). -/
def Mesh.getVertexCount {C G A : Type} (s : Mesh C G A) : Nat :=
  s.vertices.length

/-- `Mesh.getFace` (Mesh.js lines 274-277): the raw array read
`this.faces[index]`, which is the face when in range and `undefined`
otherwise. -/
def Mesh.getFace {C G A : Type} (s : Mesh C G A) (index : Nat) : Option Face :=
  jsGet s.faces index

/-- The 2D affine calc matrix supplied by the external `GetCalcMatrix`
collaborator, in Phaser's TransformMatrix layout `(a, b, c, d, tx, ty)`. -/
structure TransformMatrix where
  a : Rat
  b : Rat
  c : Rat
  d : Rat
  tx : Rat
  ty : Rat
deriving DecidableEq

/-- Screen-space x of a local point under the calc matrix. -/
def TransformMatrix.transformX (m : TransformMatrix) (x y : Rat) : Rat :=
  m.a * x + m.c * y + m.tx

/-- Screen-space y of a local point under the calc matrix. -/
def TransformMatrix.transformY (m : TransformMatrix) (x y : Rat) : Rat :=
  m.b * x + m.d * y + m.ty

/-- Twice the signed area of the triangle `(x0,y0) (x1,y1) (x2,y2)`;
zero exactly for degenerate (zero-area) triangles. -/
def triArea (x0 y0 x1 y1 x2 y2 : Rat) : Rat :=
  (x1 - x0) * (y2 - y0) - (y1 - y0) * (x2 - x0)

/-- The cross product of the edge `(x0,y0) → (x1,y1)` with the vector
from `(x0,y0)` to the test point `(px,py)`. -/
def edgeCross (x0 y0 x1 y1 px py : Rat) : Rat :=
  (x1 - x0) * (py - y0) - (y1 - y0) * (px - x0)

/-- Modelled from the spec: `Face.js` is not part of the given sources.
Per the spec (§4.2) the containment test computes the three edge cross
products relative to the test point and reports containment (boundary
inclusive) iff all three are non-negative or all three are non-positive,
with degenerate (zero-area) triangles answering false rather than
dividing by zero.  No division occurs at all. -/
def containsTri (x0 y0 x1 y1 x2 y2 px py : Rat) : Bool :=
  if triArea x0 y0 x1 y1 x2 y2 = 0 then
    false
  else
    decide
      ((0 ≤ edgeCross x0 y0 x1 y1 px py ∧ 0 ≤ edgeCross x1 y1 x2 y2 px py ∧
          0 ≤ edgeCross x2 y2 x0 y0 px py) ∨
        (edgeCross x0 y0 x1 y1 px py ≤ 0 ∧ edgeCross x1 y1 x2 y2 px py ≤ 0 ∧
          edgeCross x2 y2 x0 y0 px py ≤ 0))

/-- The local position of a vertex, when both coordinates are defined. -/
def Vertex.xy (vert : Vertex) : Option (Rat × Rat) :=
  match vert.x, vert.y with
  | some a, some b => some (a, b)
  | _, _ => none

/-- Modelled from the spec: `Face.contains` (consumed by
`Mesh.getFaceAt`, Mesh.js line 292) transforms the three vertex local
positions by the supplied calc matrix and runs the point-in-triangle
test on the screen-space coordinates. -/
def Face.contains (f : Face) (px py : Rat) (m : TransformMatrix) : Bool :=
  match f.vertex1.bind Vertex.xy, f.vertex2.bind Vertex.xy, f.vertex3.bind Vertex.xy with
  | some p1, some p2, some p3 =>
    containsTri (m.transformX p1.1 p1.2) (m.transformY p1.1 p1.2)
      (m.transformX p2.1 p2.2) (m.transformY p2.1 p2.2)
      (m.transformX p3.1 p3.2) (m.transformY p3.1 p3.2) px py
  | _, _, _ => false

/-- The scan loop of `Mesh.getFaceAt` (Mesh.js lines 285-298): walk the
faces in order, pushing each face that contains the point onto the
results array. -/
def getFaceAtLoop (px py : Rat) (calcMatrix : TransformMatrix) :
    List Face → List Face → List Face
  | [], results => results
  | face :: rest, results =>
    if Face.contains face px py calcMatrix then
      getFaceAtLoop px py calcMatrix rest (results ++ [face])
    else
      getFaceAtLoop px py calcMatrix rest results

/-- `Mesh.getFaceAt` (Mesh.js lines 279-299).  The camera only enters via
the calc matrix produced by the external `GetCalcMatrix` collaborator, so
the model takes that matrix directly. -/
def Mesh.getFaceAt {C G A : Type} (s : Mesh C G A) (px py : Rat)
    (calcMatrix : TransformMatrix) : List Face :=
  getFaceAtLoop px py calcMatrix s.faces []

/-- A mesh state with no vertices and no faces, over trivial collaborator
types; the state a fresh Mesh has before its constructor ingests the
constructor arguments. -/
def emptyMesh : Mesh Unit Unit Unit :=
  initialMesh ()

/-- The identity calc matrix (screen space = local space). -/
def identityMatrix : TransformMatrix :=
  { a := 1, b := 0, c := 0, d := 1, tx := 0, ty := 0 }

/-- First example call: a single triangle added to an empty mesh. -/
def mesh1? : Except String (Mesh Unit Unit Unit) :=
  Mesh.addVertices emptyMesh [0, 0, 1, 0, 0, 1] [0, 0, 1, 0, 1, 1] none none none

/-- Second example call: three further vertices added to the mesh that
already holds one face. -/
def mesh2? : Except String (Mesh Unit Unit Unit) :=
  mesh1?.bind fun s1 =>
    Mesh.addVertices s1 [2, 0, 3, 0, 2, 1] [0, 0, 1, 0, 1, 1] none none none

/-- The vertex produced by `addVertices emptyMesh [1, 2] [3, 4]` with
scalar color 5 and scalar alpha 1/2. -/
def exScalarVert : Vertex :=
  { x := some 1, y := some 2, u := some 3, v := some 4, color := some 5, alpha := some (1/2) }

/-- The mesh state produced by that call: one vertex, and one face whose
second and third references are undefined reads. -/
def exScalarMesh : Mesh Unit Unit Unit :=
  { faces := [{ vertex1 := some exScalarVert, vertex2 := none, vertex3 := none }]
    vertices := [exScalarVert]
    tintFill := false
    debugCallback := none
    debugGraphic := none
    anims := () }

/-- A vertex sitting at the origin with default color and alpha. -/
def zeroVertex : Vertex :=
  { x := some 0, y := some 0, u := some 0, v := some 0, color := some 0xffffff, alpha := some 1 }

/-- The degenerate face whose three vertices all sit at `(0, 0)`. -/
def zeroFace : Face :=
  { vertex1 := some zeroVertex, vertex2 := some zeroVertex, vertex3 := some zeroVertex }

/-- A mesh state holding exactly the degenerate face. -/
def exFaceMesh : Mesh Unit Unit Unit :=
  { faces := [zeroFace]
    vertices := [zeroVertex, zeroVertex, zeroVertex]
    tintFill := false
    debugCallback := none
    debugGraphic := none
    anims := () }

/-! ## Helper lemmas -/

/-- The scan loop of `getFaceAt` accumulates exactly the faces passing the
containment test, preserving their order. -/
theorem getFaceAtLoop_eq (px py : Rat) (m : TransformMatrix)
    (faces results : List Face) :
    getFaceAtLoop px py m faces results =
      results ++ faces.filter (fun f => Face.contains f px py m) := by
  induction faces generalizing results with
  | nil => simp [getFaceAtLoop]
  | cons face rest ih =>
    by_cases hc : Face.contains face px py m
    · simp [getFaceAtLoop, hc, ih]
    · simp [getFaceAtLoop, hc, ih]

/-- The indexed ingestion loop produces one vertex per index entry, with
position and uv looked up at twice the entry's value and color and alpha
picked at the entry's position in the index sequence. -/
theorem indexedLoop_eq_enumFrom_map (vertices uvs : List Rat)
    (colors : NumOrArr Nat) (alphas : NumOrArr Rat) (idxs : List Nat) (i : Nat) :
    indexedLoop vertices uvs colors alphas idxs i =
      (idxs.enumFrom i).map (fun p =>
        { x := jsGet vertices (p.2 * 2)
          y := jsGet vertices (p.2 * 2 + 1)
          u := jsGet uvs (p.2 * 2)
          v := jsGet uvs (p.2 * 2 + 1)
          color := colors.pick p.1
          alpha := alphas.pick p.1 }) := by
  induction idxs generalizing i with
  | nil => simp [indexedLoop, List.enumFrom]
  | cons idx rest ih => simp [indexedLoop, List.enumFrom, ih]

/-- The indexed ingestion loop allocates exactly one vertex per index
entry. -/
theorem indexedLoop_length (vertices uvs : List Rat) (colors : NumOrArr Nat)
    (alphas : NumOrArr Rat) (idxs : List Nat) (i : Nat) :
    (indexedLoop vertices uvs colors alphas idxs i).length = idxs.length := by
  induction idxs generalizing i with
  | nil => rfl
  | cons idx rest ih => simp [indexedLoop, ih]

/-- With scalar color and alpha arguments, every vertex produced by the
indexed ingestion loop carries that color and alpha. -/
theorem indexedLoop_scalar_mem (vertices uvs : List Rat) (c : Nat) (a : Rat)
    (idxs : List Nat) : ∀ (i : Nat) (v : Vertex),
      v ∈ indexedLoop vertices uvs (NumOrArr.num c) (NumOrArr.num a) idxs i →
      v.color = some c ∧ v.alpha = some a := by
  induction idxs with
  | nil =>
    intro i v hv
    simp [indexedLoop] at hv
  | cons idx rest ih =>
    intro i v hv
    simp only [indexedLoop] at hv
    rcases List.mem_cons.mp hv with h1 | h2
    · subst h1
      exact ⟨rfl, rfl⟩
    · exact ih (i + 1) v h2

/-- With scalar color and alpha arguments, every vertex produced by the
non-indexed ingestion loop carries that color and alpha. -/
theorem plainLoop_scalar_mem (c : Nat) (a : Rat) :
    ∀ (vertices uvs : List Rat) (colorIndex : Nat) (v : Vertex),
      v ∈ plainLoop (NumOrArr.num c) (NumOrArr.num a) vertices uvs colorIndex →
      v.color = some c ∧ v.alpha = some a
  | [], _, _, v, hv => by simp [plainLoop] at hv
  | [x0], uvs, colorIndex, v, hv => by
    simp only [plainLoop, List.mem_singleton] at hv
    subst hv
    exact ⟨rfl, rfl⟩
  | x0 :: y0 :: rest, uvs, colorIndex, v, hv => by
    simp only [plainLoop] at hv
    rcases List.mem_cons.mp hv with h1 | h2
    · subst h1
      exact ⟨rfl, rfl⟩
    · exact plainLoop_scalar_mem c a rest (uvs.drop 2) (colorIndex + 1) v h2

/-- When the position and uv arrays agree in length, `addVertices`
succeeds and its result appends the ingested vertices and the faces of
the face loop run over the whole extended vertex collection. -/
theorem addVertices_eq_ok {C G A : Type} (s : Mesh C G A) (vertices uvs : List Rat)
    (indicies : Option (List Nat)) (colors0 : Option (NumOrArr Nat))
    (alphas0 : Option (NumOrArr Rat)) (hlen : vertices.length = uvs.length) :
    Mesh.addVertices s vertices uvs indicies colors0 alphas0 =
      Except.ok { s with
        vertices := s.vertices ++ newVertices vertices uvs
          (colors0.getD (NumOrArr.num 0xffffff)) (alphas0.getD (NumOrArr.num 1)) indicies
        faces := s.faces ++ faceLoop (s.vertices ++ newVertices vertices uvs
          (colors0.getD (NumOrArr.num 0xffffff)) (alphas0.getD (NumOrArr.num 1)) indicies) } := by
  simp only [Mesh.addVertices]
  rw [if_neg (fun hne => hne hlen)]

/-! ## Claim theorems -/

/-- Claim C1 (code-bug evidence): on a mesh that already holds one face
over vertices 0-2, a second `addVertices` call with three further
vertices leaves the old face in place but appends two faces, and the
first appended face (index 1) is a duplicate of the pre-existing face,
re-covering vertices that were already part of a face before the call —
because the face loop restarts at index 0 over the whole vertex
collection and pushes onto the existing faces array.  The claim requires
exactly one new face, covering only the new vertices 3-5. -/
theorem addVertices_second_call_refaces_old_vertices :
    mesh1?.map Mesh.getFaceCount = Except.ok 1 ∧
    mesh2?.map Mesh.getFaceCount = Except.ok 3 ∧
    mesh2?.map (fun s2 => jsGet s2.faces 1) = mesh2?.map (fun s2 => jsGet s2.faces 0) :=
  ⟨rfl, rfl, rfl⟩

/-- Claim C2 (code-bug evidence): on an empty mesh, 8 position values
(4 vertices) make the face loop run at i = 0 and i = 3, producing 2
faces instead of floor(4/3) = 1; the trailing vertex is not dropped but
becomes the first member of a face whose other two references are
undefined reads.  The same happens with 4 index entries in indexed
mode. -/
theorem addVertices_trailing_vertices_make_extra_face :
    (Mesh.addVertices emptyMesh [0, 0, 10, 0, 10, 10, 0, 10] [0, 0, 1, 0, 1, 1, 0, 1]
        none none none).map
      (fun s2 => (Mesh.getFaceCount s2, Mesh.getVertexCount s2,
        (jsGet s2.faces 1).map (fun f => (f.vertex2, f.vertex3)))) =
      Except.ok (2, 4, some (none, none)) ∧
    (Mesh.addVertices emptyMesh [0, 0, 10, 0, 10, 10, 0, 10] [0, 0, 1, 0, 1, 1, 0, 1]
        (some [0, 1, 2, 3]) none none).map Mesh.getFaceCount = Except.ok 2 :=
  ⟨rfl, rfl⟩

/-- Claim C3: `addVertices` with position and uv arrays of unequal length
fails with the validation error.  The length check is the first statement
of the function, before any vertex or face is constructed, so the error
result leaves the caller's collections exactly as they were (in this
pure model the error carries no new state). -/
theorem addVertices_mismatch_error {C G A : Type} (s : Mesh C G A)
    (vertices uvs : List Rat) (indicies : Option (List Nat))
    (colors0 : Option (NumOrArr Nat)) (alphas0 : Option (NumOrArr Rat))
    (hlen : vertices.length ≠ uvs.length) :
    Mesh.addVertices s vertices uvs indicies colors0 alphas0 =
      Except.error "Mesh - vertices and uv count not equal" := by
  simp only [Mesh.addVertices]
  rw [if_pos hlen]

/-- Witness for C3 at a concrete mismatched input. -/
theorem addVertices_mismatch_error_witness :
    Mesh.addVertices emptyMesh [0, 1] [0] none none none =
      Except.error "Mesh - vertices and uv count not equal" :=
  addVertices_mismatch_error emptyMesh [0, 1] [0] none none none (by decide)

/-- Claim C4: indexed ingestion allocates exactly one new vertex per
index entry (no deduplication), with position and uv read at offset
`index * 2` into the flat arrays and color/alpha read at the entry's
position in the index sequence (`colors[i]`, `alphas[i]`); the quad
example with 8 position values and indices `[0,1,2, 0,2,3]` yields 6
vertices and 2 faces. -/
theorem addVertices_indexed_one_vertex_per_entry {C G A : Type} (s : Mesh C G A)
    (vertices uvs : List Rat) (idxs cs : List Nat) (alps : List Rat)
    (hlen : vertices.length = uvs.length) :
    (∃ s2,
      Mesh.addVertices s vertices uvs (some idxs) (some (NumOrArr.arr cs))
          (some (NumOrArr.arr alps)) = Except.ok s2 ∧
      s2.vertices = s.vertices ++ idxs.enum.map (fun p =>
        { x := jsGet vertices (p.2 * 2)
          y := jsGet vertices (p.2 * 2 + 1)
          u := jsGet uvs (p.2 * 2)
          v := jsGet uvs (p.2 * 2 + 1)
          color := jsGet cs p.1
          alpha := jsGet alps p.1 : Vertex }) ∧
      s2.vertices.length = s.vertices.length + idxs.length) ∧
    (Mesh.addVertices emptyMesh [0, 0, 10, 0, 10, 10, 0, 10] [0, 0, 1, 0, 1, 1, 0, 1]
        (some [0, 1, 2, 0, 2, 3]) none none).map
      (fun s2 => (Mesh.getVertexCount s2, Mesh.getFaceCount s2)) = Except.ok (6, 2) := by
  constructor
  · refine ⟨_, addVertices_eq_ok s vertices uvs (some idxs) _ _ hlen, ?_, ?_⟩
    · show s.vertices ++ indexedLoop vertices uvs (NumOrArr.arr cs) (NumOrArr.arr alps) idxs 0 = _
      rw [indexedLoop_eq_enumFrom_map]
      rfl
    · show (s.vertices ++ indexedLoop vertices uvs (NumOrArr.arr cs) (NumOrArr.arr alps) idxs 0).length = _
      simp [indexedLoop_length]
  · rfl

/-- Witness for C4 at concrete inputs, including a repeated index and a
colors array shorter than the index sequence. -/
theorem addVertices_indexed_one_vertex_per_entry_witness :
    (∃ s2,
      Mesh.addVertices emptyMesh [5, 6] [7, 8] (some [0, 0]) (some (NumOrArr.arr [11]))
          (some (NumOrArr.arr [])) = Except.ok s2 ∧
      s2.vertices = emptyMesh.vertices ++ ([0, 0] : List Nat).enum.map (fun p =>
        { x := jsGet [5, 6] (p.2 * 2)
          y := jsGet [5, 6] (p.2 * 2 + 1)
          u := jsGet [7, 8] (p.2 * 2)
          v := jsGet [7, 8] (p.2 * 2 + 1)
          color := jsGet [11] p.1
          alpha := jsGet ([] : List Rat) p.1 : Vertex }) ∧
      s2.vertices.length = emptyMesh.vertices.length + ([0, 0] : List Nat).length) ∧
    (Mesh.addVertices emptyMesh [0, 0, 10, 0, 10, 10, 0, 10] [0, 0, 1, 0, 1, 1, 0, 1]
        (some [0, 1, 2, 0, 2, 3]) none none).map
      (fun s2 => (Mesh.getVertexCount s2, Mesh.getFaceCount s2)) = Except.ok (6, 2) :=
  addVertices_indexed_one_vertex_per_entry emptyMesh [5, 6] [7, 8] [0, 0] [11] [] rfl

/-- Claim C5: after `clearVertices` both size accessors report 0, for
every prior mesh state, and `clearVertices` is idempotent. -/
theorem clearVertices_empties_idempotent {C G A : Type} (s : Mesh C G A) :
    Mesh.getFaceCount (Mesh.clearVertices s) = 0 ∧
    Mesh.getVertexCount (Mesh.clearVertices s) = 0 ∧
    Mesh.clearVertices (Mesh.clearVertices s) = Mesh.clearVertices s :=
  ⟨rfl, rfl, rfl⟩

/-- Claim C6: `getFaceAt` returns exactly the faces whose containment
test succeeds, in the order the faces appear in the mesh's face
collection, and an empty mesh yields an empty result for any query
point. -/
theorem getFaceAt_is_in_order_filter {C G A : Type} (s : Mesh C G A) (px py : Rat)
    (m : TransformMatrix) :
    Mesh.getFaceAt s px py m = s.faces.filter (fun f => Face.contains f px py m) ∧
    (s.faces = [] → Mesh.getFaceAt s px py m = []) := by
  have h := getFaceAtLoop_eq px py m s.faces []
  refine ⟨by simpa [Mesh.getFaceAt] using h, fun he => ?_⟩
  simp [Mesh.getFaceAt, he, getFaceAtLoop]

/-- Witness for C6 on the empty mesh. -/
theorem getFaceAt_is_in_order_filter_witness :
    Mesh.getFaceAt emptyMesh 0 0 identityMatrix =
      emptyMesh.faces.filter (fun f => Face.contains f 0 0 identityMatrix) ∧
    Mesh.getFaceAt emptyMesh 0 0 identityMatrix = [] :=
  ⟨(getFaceAt_is_in_order_filter emptyMesh 0 0 identityMatrix).1,
    (getFaceAt_is_in_order_filter emptyMesh 0 0 identityMatrix).2 rfl⟩

/-- Claim C7: `getFace` returns the face at the requested position when
the index is in bounds, and the absence indicator (undefined, here
`none`) when it is out of range; no exception is involved. -/
theorem getFace_bounds {C G A : Type} (s : Mesh C G A) (index : Nat) :
    (∀ h : index < s.faces.length, Mesh.getFace s index = some (s.faces.get ⟨index, h⟩)) ∧
    (s.faces.length ≤ index → Mesh.getFace s index = none) :=
  ⟨fun h => List.get?_eq_get h, fun h => List.get?_eq_none.mpr h⟩

/-- Witness for C7 on a one-face mesh, in bounds and out of bounds. -/
theorem getFace_bounds_witness :
    Mesh.getFace exFaceMesh 0 = some (exFaceMesh.faces.get ⟨0, by decide⟩) ∧
    Mesh.getFace exFaceMesh 3 = none :=
  ⟨(getFace_bounds exFaceMesh 0).1 (by decide), (getFace_bounds exFaceMesh 3).2 (by decide)⟩

/-- Claim C8: omitting `colors` and `alphas` is the same call as passing
the scalar defaults 0xffffff and 1, and a scalar color/alpha pair is
applied uniformly: every vertex appended by the call (in either
ingestion mode) carries exactly that color and alpha. -/
theorem addVertices_scalar_color_alpha {C G A : Type} (s : Mesh C G A)
    (vertices uvs : List Rat) (indicies : Option (List Nat)) (c : Nat) (a : Rat) :
    Mesh.addVertices s vertices uvs indicies none none =
      Mesh.addVertices s vertices uvs indicies (some (NumOrArr.num 0xffffff))
        (some (NumOrArr.num 1)) ∧
    (∀ s2, Mesh.addVertices s vertices uvs indicies (some (NumOrArr.num c))
        (some (NumOrArr.num a)) = Except.ok s2 →
      ∀ v ∈ s2.vertices.drop s.vertices.length, v.color = some c ∧ v.alpha = some a) := by
  refine ⟨rfl, fun s2 hok v hv => ?_⟩
  by_cases hlen : vertices.length = uvs.length
  · rw [addVertices_eq_ok s vertices uvs indicies _ _ hlen] at hok
    injection hok with h2
    subst h2
    dsimp only at hv
    rw [List.drop_left] at hv
    cases indicies with
    | some idxs => exact indexedLoop_scalar_mem vertices uvs c a idxs 0 v hv
    | none => exact plainLoop_scalar_mem c a vertices uvs 0 v hv
  · simp only [Mesh.addVertices] at hok
    rw [if_pos hlen] at hok
    exact Except.noConfusion hok

/-- Witness for C8: a concrete call with scalar color 5 and scalar alpha
1/2 produces a vertex carrying exactly those values. -/
theorem addVertices_scalar_color_alpha_witness :
    exScalarVert.color = some 5 ∧ exScalarVert.alpha = some (1/2) :=
  (addVertices_scalar_color_alpha emptyMesh [1, 2] [3, 4] none 5 (1/2)).2
    exScalarMesh rfl exScalarVert (by simp [exScalarMesh, emptyMesh, initialMesh])

/-- Claim C9 (spec-modelled, `Face.js` not under src): the containment
test answers false for every degenerate (zero-area) screen-space
triangle and every query point — the test involves no division at all —
and in particular the face with all three vertices at the origin
contains no point under any calc matrix, including the origin itself. -/
theorem contains_degenerate_false :
    (∀ x0 y0 x1 y1 x2 y2 px py : Rat, triArea x0 y0 x1 y1 x2 y2 = 0 →
      containsTri x0 y0 x1 y1 x2 y2 px py = false) ∧
    (∀ (m : TransformMatrix) (px py : Rat), Face.contains zeroFace px py m = false) := by
  constructor
  · intro x0 y0 x1 y1 x2 y2 px py h
    simp [containsTri, h]
  · intro m px py
    show containsTri (m.transformX 0 0) (m.transformY 0 0) (m.transformX 0 0)
      (m.transformY 0 0) (m.transformX 0 0) (m.transformY 0 0) px py = false
    simp [containsTri, triArea]

/-- Witness for C9: the all-origin degenerate triangle against the query
point `(0, 0)`, both directly and through the face under the identity
matrix. -/
theorem contains_degenerate_false_witness :
    containsTri 0 0 0 0 0 0 0 0 = false ∧
    Face.contains zeroFace 0 0 identityMatrix = false :=
  ⟨contains_degenerate_false.1 0 0 0 0 0 0 0 0 (by norm_num [triArea]),
    contains_degenerate_false.2 identityMatrix 0 0⟩

/-- Claim C10: `clearVertices` touches only the face and vertex
collections; the tint-fill flag, the debug callback, the debug graphic
reference and the animation-state delegate are untouched, for every mesh
state. -/
theorem clearVertices_touches_only_collections {C G A : Type} (s : Mesh C G A) :
    (Mesh.clearVertices s).tintFill = s.tintFill ∧
    (Mesh.clearVertices s).debugCallback = s.debugCallback ∧
    (Mesh.clearVertices s).debugGraphic = s.debugGraphic ∧
    (Mesh.clearVertices s).anims = s.anims :=
  ⟨rfl, rfl, rfl, rfl⟩

end Phaser
